import Mathlib

/-!
Verification of the fillablePDF repository: a shallow embedding of the
geometry engine (drag / resize under zoom, src/client/src/components/sidebar.tsx),
the export coordinate mapper (src/server/routes.ts), and the in-memory CRUD
storage (src/server/storage.ts, schema in src/shared/schema.ts).

Coordinates are modelled over ℚ (the source computes with JS numbers; all
claims are about exact arithmetic identities).  A JavaScript Map is modelled
as an insertion-ordered association list, matching the iteration order of
Map.prototype.values().  JavaScript's three-valued optionality
(undefined / null / value) is modelled by the JsOpt type.
-/

namespace FillablePDF

/-- A JavaScript optional value: a property can be absent (undefined), null,
or hold a value. -/
inductive JsOpt (α : Type) where
  | undef : JsOpt α
  | null : JsOpt α
  | val : α → JsOpt α
deriving DecidableEq, Repr

/-- JavaScript nullish coalescing a ?? b: b when a is undefined or null. -/
def jsNullish {α : Type} (a b : JsOpt α) : JsOpt α :=
  match a with
  | JsOpt.val v => JsOpt.val v
  | _ => b

/-! ## Geometry engine (src/client/src/components/sidebar.tsx, canonical
release-commit TextFieldComponent) -/

/-- Zoom scale factor: scale = zoomLevel / 100 (sidebar.tsx). -/
def zoomScale (zoomLevel : ℚ) : ℚ := zoomLevel / 100

/-- One pointer-move during a drag (sidebar.tsx handleMouseMove, drag branch):
deltaX = (pointer.x - dragStart.x) / scale, deltaY likewise,
newX = max(0, initialPosition.x + deltaX), newY = max(0, initialPosition.y + deltaY). -/
def dragPosition (scale : ℚ) (dragStart pointer initialPosition : ℚ × ℚ) : ℚ × ℚ :=
  let deltaX := (pointer.1 - dragStart.1) / scale
  let deltaY := (pointer.2 - dragStart.2) / scale
  (max 0 (initialPosition.1 + deltaX), max 0 (initialPosition.2 + deltaY))

/-- A whole drag gesture: dragStart and initialPosition are snapshotted at
pointer-down; every subsequent pointer-move recomputes currentPosition from
those snapshots; handleEnd commits the currentPosition left by the last move
(sidebar.tsx handleMouseMove / handleEnd). -/
def dragGestureCommit (scale : ℚ) (dragStart initialPosition : ℚ × ℚ)
    (moves : List (ℚ × ℚ)) : ℚ × ℚ :=
  moves.foldl (fun _ pointer => dragPosition scale dragStart pointer initialPosition)
    initialPosition

/-- Resize handle direction (sidebar.tsx: 'se' both axes, 'e' width only,
's' height only). -/
inductive ResizeDirection where
  | se : ResizeDirection
  | e : ResizeDirection
  | s : ResizeDirection
deriving DecidableEq, Repr

/-- One resize step on a document-space delta (sidebar.tsx handleMouseMove,
resize branch): newWidth = max(50, w0 + dx) when direction is se or e,
otherwise w0; newHeight = max(20, h0 + dy) when direction is se or s,
otherwise h0. -/
def resizeSize (direction : ResizeDirection) (initialSize delta : ℚ × ℚ) : ℚ × ℚ :=
  let newWidth :=
    if direction = ResizeDirection.se ∨ direction = ResizeDirection.e then
      max 50 (initialSize.1 + delta.1)
    else initialSize.1
  let newHeight :=
    if direction = ResizeDirection.se ∨ direction = ResizeDirection.s then
      max 20 (initialSize.2 + delta.2)
    else initialSize.2
  (newWidth, newHeight)

/-! ## Data model (src/shared/schema.ts) -/

/-- A stored text field row (schema.ts textFields table).  required and
fontFamily are declared nullable with column defaults false and "Arial";
at runtime MemStorage can also leave fontFamily undefined, hence JsOpt. -/
structure TextField where
  id : String
  documentId : String
  name : String
  x : ℚ
  y : ℚ
  width : ℚ
  height : ℚ
  required : JsOpt Bool
  fontFamily : JsOpt String
deriving DecidableEq, Repr

/-- Insert payload for a text field (insertTextFieldSchema = table minus id;
required and fontFamily are optional). -/
structure InsertTextField where
  documentId : String
  name : String
  x : ℚ
  y : ℚ
  width : ℚ
  height : ℚ
  required : JsOpt Bool
  fontFamily : JsOpt String
deriving DecidableEq, Repr

/-- A stored document row (schema.ts documents table); width and height are
nullable reals. -/
structure Document where
  id : String
  filename : String
  originalName : String
  mimeType : String
  size : ℤ
  width : JsOpt ℚ
  height : JsOpt ℚ
deriving DecidableEq, Repr

/-- Insert payload for a document (insertDocumentSchema = table minus id). -/
structure InsertDocument where
  filename : String
  originalName : String
  mimeType : String
  size : ℤ
  width : JsOpt ℚ
  height : JsOpt ℚ
deriving DecidableEq, Repr

/-- Declared column default for textFields.required in schema.ts:
boolean("required").default(false). -/
def requiredColumnDefault : JsOpt Bool := JsOpt.val false

/-- Declared column default for textFields.fontFamily in schema.ts:
text("font_family").default("Arial"). -/
def fontFamilyColumnDefault : JsOpt String := JsOpt.val ("Arial")

/-! ## JavaScript Map as an insertion-ordered association list -/

/-- Map.prototype.get. -/
def mapGet {α : Type} (m : List (String × α)) (k : String) : Option α :=
  (m.find? fun p => p.1 == k).map Prod.snd

/-- Map.prototype.has. -/
def mapHas {α : Type} (m : List (String × α)) (k : String) : Bool :=
  m.any fun p => p.1 == k

/-- Map.prototype.set: overwrite in place when the key exists (keeping its
insertion position), otherwise append at the end. -/
def mapSet {α : Type} (m : List (String × α)) (k : String) (v : α) :
    List (String × α) :=
  if mapHas m k then m.map fun p => if p.1 == k then (k, v) else p
  else m ++ [(k, v)]

/-- Map.prototype.delete (as state transformer). -/
def mapDelete {α : Type} (m : List (String × α)) (k : String) :
    List (String × α) :=
  m.filter fun p => p.1 != k

/-- Array.from(map.values()): values in insertion order. -/
def mapValues {α : Type} (m : List (String × α)) : List α := m.map Prod.snd

/-! ## MemStorage (src/server/storage.ts) -/

/-- The in-memory storage: two Maps keyed by id. -/
structure MemStorage where
  documents : List (String × Document)
  textFields : List (String × TextField)
deriving DecidableEq, Repr

/-- Fresh storage as built by the MemStorage constructor. -/
def emptyStorage : MemStorage := { documents := [], textFields := [] }

/-- MemStorage.createDocument: the randomUUID result is passed explicitly.
Spreads the insert, sets id, and applies width ?? null / height ?? null. -/
def createDocument (s : MemStorage) (id : String) (ins : InsertDocument) :
    MemStorage × Document :=
  let doc : Document :=
    { id := id, filename := ins.filename, originalName := ins.originalName,
      mimeType := ins.mimeType, size := ins.size,
      width := jsNullish ins.width JsOpt.null,
      height := jsNullish ins.height JsOpt.null }
  ({ s with documents := mapSet s.documents id doc }, doc)

/-- MemStorage.getDocument. -/
def getDocument (s : MemStorage) (id : String) : Option Document :=
  mapGet s.documents id

/-- MemStorage.deleteDocument: removes the document, then removes every text
field whose documentId equals id (iterating a snapshot of the entries). -/
def deleteDocument (s : MemStorage) (id : String) : MemStorage :=
  { documents := mapDelete s.documents id,
    textFields := s.textFields.filter fun p => p.2.documentId != id }

/-- The TextField record built by MemStorage.createTextField: spread of the
insert, the fresh id, and required := insert.required ?? null.  fontFamily is
whatever the spread copied (undefined when the insert omitted it); the
schema.ts column defaults are not applied. -/
def mkTextField (id : String) (ins : InsertTextField) : TextField :=
  { id := id, documentId := ins.documentId, name := ins.name,
    x := ins.x, y := ins.y, width := ins.width, height := ins.height,
    required := jsNullish ins.required JsOpt.null,
    fontFamily := ins.fontFamily }

/-- MemStorage.createTextField. -/
def createTextField (s : MemStorage) (id : String) (ins : InsertTextField) :
    MemStorage × TextField :=
  let f := mkTextField id ins
  ({ s with textFields := mapSet s.textFields id f }, f)

/-- MemStorage.getTextFieldsByDocument:
Array.from(values()).filter(field.documentId === documentId). -/
def getTextFieldsByDocument (s : MemStorage) (documentId : String) :
    List TextField :=
  (mapValues s.textFields).filter fun f => f.documentId == documentId

/-- A PATCH body, Partial of TextField: each property may be present
(with a value of the column type) or absent. -/
structure TextFieldUpdate where
  id : Option String
  documentId : Option String
  name : Option String
  x : Option ℚ
  y : Option ℚ
  width : Option ℚ
  height : Option ℚ
  required : Option (JsOpt Bool)
  fontFamily : Option (JsOpt String)
deriving DecidableEq, Repr

/-- The update that changes nothing (empty PATCH body). -/
def emptyUpdate : TextFieldUpdate :=
  { id := none, documentId := none, name := none, x := none, y := none,
    width := none, height := none, required := none, fontFamily := none }

/-- The JavaScript object spread merge of updateTextField:
updated = spread of existing then updates (present properties win). -/
def applyUpdate (f : TextField) (u : TextFieldUpdate) : TextField :=
  { id := u.id.getD f.id, documentId := u.documentId.getD f.documentId,
    name := u.name.getD f.name, x := u.x.getD f.x, y := u.y.getD f.y,
    width := u.width.getD f.width, height := u.height.getD f.height,
    required := u.required.getD f.required,
    fontFamily := u.fontFamily.getD f.fontFamily }

/-- MemStorage.updateTextField: undefined when the id is unknown, otherwise
stores and returns the spread merge, with no validation of the updates
(routes.ts PATCH passes req.body through unvalidated). -/
def updateTextField (s : MemStorage) (id : String) (u : TextFieldUpdate) :
    MemStorage × Option TextField :=
  match mapGet s.textFields id with
  | none => (s, none)
  | some existing =>
    let updated := applyUpdate existing u
    ({ s with textFields := mapSet s.textFields id updated }, some updated)

/-- MemStorage.deleteTextField: a bare Map.delete. -/
def deleteTextField (s : MemStorage) (id : String) : MemStorage :=
  { s with textFields := mapDelete s.textFields id }

/-- Folding a batch of createTextField calls (each with its uuid). -/
def createFieldsAll (s : MemStorage) (inserts : List (String × InsertTextField)) :
    MemStorage :=
  inserts.foldl (fun acc p => (createTextField acc p.1 p.2).1) s

/-! ## Export coordinate mapper (src/server/routes.ts, export route) -/

/-- The rectangle and name a form text field is placed with. -/
structure Placement where
  name : String
  x : ℚ
  y : ℚ
  width : ℚ
  height : ℚ
deriving DecidableEq, Repr

/-- Placement of one field (routes.ts: yCoordinate = pageHeight - field.y -
field.height; addToPage with x = field.x and the field's width and height). -/
def exportPlacement (pageHeight : ℚ) (f : TextField) : Placement :=
  { name := f.name, x := f.x, y := pageHeight - f.y - f.height,
    width := f.width, height := f.height }

/-- The export route: iterates getTextFieldsByDocument in list order and
places each field on the first page. -/
def exportFields (s : MemStorage) (documentId : String) (pageHeight : ℚ) :
    List Placement :=
  (getTextFieldsByDocument s documentId).map (exportPlacement pageHeight)

/-- Modelled from the spec: the inverse of the export y-transform, as the
round-trip property of spec section 8 states it (re-importing a PDF
y-coordinate through pageHeight - pdfY - height); no import code exists in
the repository. -/
def importY (pageHeight pdfY height : ℚ) : ℚ := pageHeight - pdfY - height

/-! ## Concrete sample data (the spec's 612×792 scenario) -/

/-- The default field payload the client sends (form-creator.tsx addTextField):
rect 150×35 at (100,100); required and fontFamily omitted from the insert as
far as the storage schema is concerned. -/
def sampleInsert : InsertTextField :=
  { documentId := "d1", name := "Field 1", x := 100, y := 100,
    width := 150, height := 35,
    required := JsOpt.undef, fontFamily := JsOpt.undef }

/-- Storage holding exactly the sample field under id f1. -/
def sampleStorage : MemStorage :=
  (createTextField emptyStorage ("f1") sampleInsert).1

/-- A PATCH body setting width to 10 and nothing else. -/
def badWidthUpdate : TextFieldUpdate := { emptyUpdate with width := some 10 }

/-- A second sample field, belonging to document d2. -/
def sampleInsert2 : InsertTextField :=
  { documentId := "d2", name := "Field 2", x := 5, y := 6, width := 70, height := 25,
    required := JsOpt.val true, fontFamily := JsOpt.val ("Arial") }

/-- A third sample field, again for d1 (to exercise creation order). -/
def sampleInsert3 : InsertTextField := { sampleInsert with name := "Field 3", x := 7 }

/-- Three createTextField payloads with their uuids, in call order. -/
def sampleInserts : List (String × InsertTextField) :=
  [("f1", sampleInsert), ("f2", sampleInsert2), ("f3", sampleInsert3)]

/-- Storage holding one field of d1 and one of d2. -/
def twoDocStorage : MemStorage :=
  createFieldsAll emptyStorage [("f1", sampleInsert), ("f2", sampleInsert2)]

/-! ## Helper lemmas -/

theorem mapHas_append {α : Type} (l : List (String × α)) (k k' : String) (v : α) :
    mapHas (l ++ [(k, v)]) k' = (mapHas l k' || (k == k')) := by
  simp [mapHas, List.any_append]

theorem fieldsByDoc_delete_self (l : List (String × TextField)) (d : String) :
    ((l.filter fun p => p.2.documentId != d).map Prod.snd).filter
      (fun f => f.documentId == d) = [] := by
  induction l with
  | nil => rfl
  | cons hd tl ih =>
    by_cases h : hd.2.documentId = d
    · simp [List.filter_cons, h, ih]
    · simp [List.filter_cons, h, ih]

theorem fieldsByDoc_delete_other (l : List (String × TextField)) (d d' : String)
    (hne : d' ≠ d) :
    ((l.filter fun p => p.2.documentId != d).map Prod.snd).filter
        (fun f => f.documentId == d')
      = (l.map Prod.snd).filter (fun f => f.documentId == d') := by
  induction l with
  | nil => rfl
  | cons hd tl ih =>
    by_cases h : hd.2.documentId = d
    · have hne2 : d ≠ d' := fun hh => hne hh.symm
      simp [List.filter_cons, h, hne2, ih]
    · simp [List.filter_cons, h, ih]

theorem createFieldsAll_textFields (inserts : List (String × InsertTextField)) :
    ∀ s : MemStorage, (∀ p ∈ inserts, mapHas s.textFields p.1 = false) →
    (inserts.map Prod.fst).Nodup →
    (createFieldsAll s inserts).textFields
      = s.textFields ++ inserts.map (fun p => (p.1, mkTextField p.1 p.2)) := by
  induction inserts with
  | nil => intro s _ _; simp [createFieldsAll]
  | cons hd tl ih =>
    intro s hfresh hnodup
    rw [List.map_cons, List.nodup_cons] at hnodup
    obtain ⟨hnotmem, hnodup2⟩ := hnodup
    have hhd : mapHas s.textFields hd.1 = false := hfresh hd (List.mem_cons_self hd tl)
    have hstep : (createTextField s hd.1 hd.2).1.textFields
        = s.textFields ++ [(hd.1, mkTextField hd.1 hd.2)] := by
      simp [createTextField, mapSet, hhd]
    have hfresh2 : ∀ p ∈ tl,
        mapHas (createTextField s hd.1 hd.2).1.textFields p.1 = false := by
      intro p hp
      rw [hstep, mapHas_append]
      have h1 : mapHas s.textFields p.1 = false :=
        hfresh p (List.mem_cons_of_mem hd hp)
      have h2 : hd.1 ≠ p.1 := by
        intro he
        exact hnotmem (he ▸ List.mem_map_of_mem Prod.fst hp)
      simp [h1, h2]
    have hrest := ih (createTextField s hd.1 hd.2).1 hfresh2 hnodup2
    have hhead : createFieldsAll s (hd :: tl)
        = createFieldsAll (createTextField s hd.1 hd.2).1 tl := rfl
    rw [hhead, hrest, hstep]
    simp

/-! ## Claim theorems -/

/-- C1: the export operation maps every committed field through
yCoordinate = pageHeight - field.y - field.height, keeping x, width and
height unchanged, placing the fields of a document in storage-list order;
in the 612×792 scenario the default field (100,100,150,35) is placed at
PDF coordinates (100, 657, 150, 35). -/
theorem C1_export_coordinates :
    (∀ (s : MemStorage) (d : String) (H : ℚ),
      exportFields s d H = (getTextFieldsByDocument s d).map (exportPlacement H)) ∧
    (∀ (H : ℚ) (f : TextField),
      (exportPlacement H f).x = f.x ∧
      (exportPlacement H f).y = H - f.y - f.height ∧
      (exportPlacement H f).width = f.width ∧
      (exportPlacement H f).height = f.height) ∧
    exportFields sampleStorage ("d1") 792
      = [{ name := "Field 1", x := 100, y := 657, width := 150, height := 35 }] := by
  refine ⟨fun s d H => rfl, fun H f => ?_, ?_⟩
  · exact ⟨rfl, rfl, rfl, rfl⟩
  · norm_num [exportFields, exportPlacement, getTextFieldsByDocument, sampleStorage,
      createTextField, mkTextField, sampleInsert, emptyStorage, mapValues, mapSet, mapHas]

/-- C2: for every zoom scale and every drag gesture, the committed position at
release is (max(0, x0 + dx/s), max(0, y0 + dy/s)) where (dx,dy) is the
on-screen delta from the gesture start to the last pointer position; in
particular (spec scenario) a drag from (100,100) by screen delta (50,50) at
50 percent zoom commits (200,200). -/
theorem C2_drag_commit :
    (∀ (scale : ℚ) (p0 : ℚ × ℚ) (x0 y0 : ℚ) (ms : List (ℚ × ℚ)) (p1 : ℚ × ℚ),
      dragGestureCommit scale p0 (x0, y0) (ms ++ [p1])
        = (max 0 (x0 + (p1.1 - p0.1) / scale), max 0 (y0 + (p1.2 - p0.2) / scale))) ∧
    dragGestureCommit (zoomScale 50) (0, 0) (100, 100) [(50, 50)] = (200, 200) := by
  constructor
  · intro scale p0 x0 y0 ms p1
    simp [dragGestureCommit, List.foldl_append, dragPosition]
  · norm_num [dragGestureCommit, dragPosition, zoomScale]

/-- C3 counterexample: the claim asserts the resulting width is always at
least 50 and the height at least 20 for every resize gesture, but resizing
with direction e from initial size (150, 10) leaves the height at 10 < 20
(direction e never touches the height, so a pre-existing sub-minimum height
survives the gesture). -/
theorem C3_floor_counterexample :
    resizeSize ResizeDirection.e (150, 10) (0, 0) = (150, 10) ∧
    ¬ (20 : ℚ) ≤ (resizeSize ResizeDirection.e (150, 10) (0, 0)).2 := by
  constructor
  · norm_num [resizeSize]
    decide
  · norm_num [resizeSize]
    decide

/-- C3 amended: direction e yields (max(50, w0+dx), h0) and never changes the
height, direction s yields (w0, max(20, h0+dy)) and never changes the width,
direction se yields (max(50, w0+dx), max(20, h0+dy)); the resized axes always
respect the floors 50 and 20, and whenever the initial size already satisfies
w0 ≥ 50 and h0 ≥ 20 the resulting size satisfies width ≥ 50 and height ≥ 20
for every direction and every delta. -/
theorem C3_resize_floors (w0 h0 dx dy : ℚ) :
    resizeSize ResizeDirection.e (w0, h0) (dx, dy) = (max 50 (w0 + dx), h0) ∧
    resizeSize ResizeDirection.s (w0, h0) (dx, dy) = (w0, max 20 (h0 + dy)) ∧
    resizeSize ResizeDirection.se (w0, h0) (dx, dy)
      = (max 50 (w0 + dx), max 20 (h0 + dy)) ∧
    (50 : ℚ) ≤ (resizeSize ResizeDirection.se (w0, h0) (dx, dy)).1 ∧
    (20 : ℚ) ≤ (resizeSize ResizeDirection.se (w0, h0) (dx, dy)).2 ∧
    (50 : ℚ) ≤ (resizeSize ResizeDirection.e (w0, h0) (dx, dy)).1 ∧
    (20 : ℚ) ≤ (resizeSize ResizeDirection.s (w0, h0) (dx, dy)).2 ∧
    ((50 : ℚ) ≤ w0 → (20 : ℚ) ≤ h0 → ∀ direction : ResizeDirection,
      (50 : ℚ) ≤ (resizeSize direction (w0, h0) (dx, dy)).1 ∧
      (20 : ℚ) ≤ (resizeSize direction (w0, h0) (dx, dy)).2) := by
  have he : resizeSize ResizeDirection.e (w0, h0) (dx, dy) = (max 50 (w0 + dx), h0) := by
    simp [resizeSize]
  have hs : resizeSize ResizeDirection.s (w0, h0) (dx, dy) = (w0, max 20 (h0 + dy)) := by
    simp [resizeSize]
  have hse : resizeSize ResizeDirection.se (w0, h0) (dx, dy)
      = (max 50 (w0 + dx), max 20 (h0 + dy)) := by
    simp [resizeSize]
  refine ⟨he, hs, hse, by rw [hse]; exact le_max_left _ _,
    by rw [hse]; exact le_max_left _ _, by rw [he]; exact le_max_left _ _,
    by rw [hs]; exact le_max_left _ _, ?_⟩
  intro hw hh direction
  cases direction with
  | se => rw [hse]; exact ⟨le_max_left _ _, le_max_left _ _⟩
  | e => rw [he]; exact ⟨le_max_left _ _, hh⟩
  | s => rw [hs]; exact ⟨hw, le_max_left _ _⟩

/-- C3 amended, instantiated (spec scenario): resizing se from (150,35) by
document delta (-200,-200) clamps to the floor values (50,20), and starting
from a size respecting the floors every direction keeps both floors. -/
theorem C3_resize_floors_witness :
    resizeSize ResizeDirection.se (150, 35) (-200, -200) = (50, 20) ∧
    (50 : ℚ) ≤ (resizeSize ResizeDirection.e (150, 35) (-200, -200)).1 ∧
    (20 : ℚ) ≤ (resizeSize ResizeDirection.e (150, 35) (-200, -200)).2 := by
  have h := C3_resize_floors 150 35 (-200) (-200)
  refine ⟨?_, h.2.2.2.2.2.1, ?_⟩
  · rw [h.2.2.1]
    norm_num
  · exact (h.2.2.2.2.2.2.2 (by norm_num) (by norm_num) ResizeDirection.e).2

/-- C4: the export y-transform is an exact involution against its inverse:
re-importing the exported coordinate pageHeight - y - height through
pageHeight - pdfY - height reproduces y for every field and page height. -/
theorem C4_roundtrip (H : ℚ) (f : TextField) :
    importY H ((exportPlacement H f).y) f.height = f.y := by
  simp [importY, exportPlacement]
  ring

/-- C5 counterexample: the claim asserts every committed TextField satisfies
width ≥ 50 and that the field update operation rejects bad geometry, but a
PATCH setting width to 10 on the sample field is accepted (returns the
updated record) and commits width 10 < 50 into storage. -/
theorem C5_invariant_counterexample :
    (updateTextField sampleStorage ("f1") badWidthUpdate).1.textFields.map
        (fun p => p.2.width) = [10] ∧
    ((updateTextField sampleStorage ("f1") badWidthUpdate).2.map TextField.width)
      = some 10 ∧
    ¬ (50 : ℚ) ≤ 10 := by
  refine ⟨rfl, rfl, by decide⟩

/-- C5 amended: drag commits always satisfy x ≥ 0 and y ≥ 0, and resize
commits keep width ≥ 50 on a resized width axis and height ≥ 20 on a resized
height axis; but the direct field update operation performs no geometry
validation: when the id exists it stores exactly the unvalidated spread
merge of the prior record with the partial update, so a direct property edit
can commit width < 50, height < 20, or any other geometry, and the
storage-wide invariant does not hold. -/
theorem C5_mutation_paths :
    (∀ (scale : ℚ) (p0 p1 r0 : ℚ × ℚ),
      0 ≤ (dragPosition scale p0 p1 r0).1 ∧ 0 ≤ (dragPosition scale p0 p1 r0).2) ∧
    (∀ (initialSize delta : ℚ × ℚ),
      (50 : ℚ) ≤ (resizeSize ResizeDirection.se initialSize delta).1 ∧
      (20 : ℚ) ≤ (resizeSize ResizeDirection.se initialSize delta).2 ∧
      (50 : ℚ) ≤ (resizeSize ResizeDirection.e initialSize delta).1 ∧
      (20 : ℚ) ≤ (resizeSize ResizeDirection.s initialSize delta).2) ∧
    (∀ (s : MemStorage) (id : String) (u : TextFieldUpdate) (f : TextField),
      mapGet s.textFields id = some f →
      updateTextField s id u
        = ({ s with textFields := mapSet s.textFields id (applyUpdate f u) },
            some (applyUpdate f u))) := by
  refine ⟨fun scale p0 p1 r0 => ⟨le_max_left _ _, le_max_left _ _⟩,
    fun initialSize delta => ?_, fun s id u f h => ?_⟩
  · refine ⟨?_, ?_, ?_, ?_⟩ <;> simp [resizeSize]
  · simp [updateTextField, h]

/-- C5 amended, instantiated: updating the sample field with the width-10
patch stores the unvalidated merge (no rejection happens). -/
theorem C5_mutation_paths_witness :
    updateTextField sampleStorage ("f1") badWidthUpdate
      = ({ sampleStorage with
            textFields := mapSet sampleStorage.textFields ("f1")
              (applyUpdate (mkTextField ("f1") sampleInsert) badWidthUpdate) },
          some (applyUpdate (mkTextField ("f1") sampleInsert) badWidthUpdate)) :=
  C5_mutation_paths.2.2 sampleStorage ("f1") badWidthUpdate
    (mkTextField ("f1") sampleInsert) (by rfl)

/-- C6: the claim (and the column defaults declared in shared/schema.ts) say
a createField call omitting the optional properties yields required = false
and fontFamily = "Arial"; evaluating MemStorage.createTextField at such an
input shows it stores required = null (from required ?? null) and leaves
fontFamily undefined, carrying neither declared default. -/
theorem C6_create_omits_defaults :
    (createTextField emptyStorage ("f1") sampleInsert).2.required = JsOpt.null ∧
    (createTextField emptyStorage ("f1") sampleInsert).2.fontFamily = JsOpt.undef ∧
    (createTextField emptyStorage ("f1") sampleInsert).2.required
      ≠ requiredColumnDefault ∧
    (createTextField emptyStorage ("f1") sampleInsert).2.fontFamily
      ≠ fontFamilyColumnDefault := by
  exact ⟨rfl, rfl, by decide, by decide⟩

/-- C7: deleting a document removes exactly its text fields: afterwards the
field list of the deleted document is empty, and the field list of every
other document is unchanged. -/
theorem C7_delete_cascade (s : MemStorage) (d : String) :
    getTextFieldsByDocument (deleteDocument s d) d = [] ∧
    ∀ d' : String, d' ≠ d →
      getTextFieldsByDocument (deleteDocument s d) d'
        = getTextFieldsByDocument s d' := by
  constructor
  · exact fieldsByDoc_delete_self s.textFields d
  · intro d' hne
    exact fieldsByDoc_delete_other s.textFields d d' hne

/-- C7 instantiated: deleting d1 from the two-document storage empties d1's
field list and leaves d2's untouched. -/
theorem C7_delete_cascade_witness :
    getTextFieldsByDocument (deleteDocument twoDocStorage ("d1")) ("d1") = [] ∧
    getTextFieldsByDocument (deleteDocument twoDocStorage ("d1")) ("d2")
      = getTextFieldsByDocument twoDocStorage ("d2") := by
  have h := C7_delete_cascade twoDocStorage ("d1")
  exact ⟨h.1, h.2 ("d2") (by decide)⟩

/-- C8: updateField returns not-found exactly when no field with the id
exists, and in that case the whole storage state is returned unchanged. -/
theorem C8_update_not_found (s : MemStorage) (id : String) (u : TextFieldUpdate) :
    ((updateTextField s id u).2 = none ↔ mapGet s.textFields id = none) ∧
    (mapGet s.textFields id = none → updateTextField s id u = (s, none)) := by
  cases h : mapGet s.textFields id with
  | none => simp [updateTextField, h]
  | some f => simp [updateTextField, h]

/-- C8 instantiated: patching an unknown id against the sample storage
returns none and leaves the storage exactly as it was. -/
theorem C8_update_not_found_witness :
    updateTextField sampleStorage ("zzz") badWidthUpdate = (sampleStorage, none) :=
  (C8_update_not_found sampleStorage ("zzz") badWidthUpdate).2 (by rfl)

/-- C9: fields created with pairwise-distinct ids are listed by
getTextFieldsByDocument in creation order (the document's creation sequence
filtered to it), and the export operation places form fields in exactly that
list order. -/
theorem C9_creation_order (inserts : List (String × InsertTextField)) (d : String)
    (H : ℚ) (hids : (inserts.map Prod.fst).Nodup) :
    getTextFieldsByDocument (createFieldsAll emptyStorage inserts) d
      = (inserts.map fun p => mkTextField p.1 p.2).filter
          (fun f => f.documentId == d) ∧
    exportFields (createFieldsAll emptyStorage inserts) d H
      = (getTextFieldsByDocument (createFieldsAll emptyStorage inserts) d).map
          (exportPlacement H) := by
  have hempty : ∀ p ∈ inserts, mapHas emptyStorage.textFields p.1 = false :=
    fun p _ => rfl
  have h := createFieldsAll_textFields inserts emptyStorage hempty hids
  refine ⟨?_, rfl⟩
  rw [getTextFieldsByDocument, mapValues, h]
  simp [emptyStorage, List.map_map]
  rfl

/-- C9 instantiated: creating f1 (d1), f2 (d2), f3 (d1) in that order lists
d1's fields as [f1's record, f3's record] and exports them in that order. -/
theorem C9_creation_order_witness :
    getTextFieldsByDocument (createFieldsAll emptyStorage sampleInserts) ("d1")
      = [mkTextField ("f1") sampleInsert, mkTextField ("f3") sampleInsert3] ∧
    exportFields (createFieldsAll emptyStorage sampleInserts) ("d1") 792
      = (getTextFieldsByDocument (createFieldsAll emptyStorage sampleInserts)
          ("d1")).map (exportPlacement 792) := by
  have h := C9_creation_order sampleInserts ("d1") 792 (by decide)
  refine ⟨?_, h.2⟩
  rw [h.1]
  rfl

/-- C10: deleting an unknown field id succeeds and leaves the storage
unchanged, and deleteField is idempotent: deleting the same id twice leaves
the same state as deleting it once. -/
theorem C10_delete_idempotent (s : MemStorage) (id : String) :
    (mapGet s.textFields id = none → deleteTextField s id = s) ∧
    deleteTextField (deleteTextField s id) id = deleteTextField s id := by
  constructor
  · intro h
    have hall : ∀ p ∈ s.textFields, (p.1 != id) = true := by
      intro p hp
      cases hf : s.textFields.find? (fun q => q.1 == id) with
      | none =>
        have := List.find?_eq_none.mp hf p hp
        simp only [bne]
        simp only [Bool.not_eq_true] at this
        simp [this]
      | some q => simp [mapGet, hf] at h
    cases s with
    | mk docs tf =>
      simp only [deleteTextField, mapDelete] at *
      simp [List.filter_eq_self.mpr hall]
  · cases s with
    | mk docs tf =>
      simp [deleteTextField, mapDelete, List.filter_filter]

/-- C10 instantiated: deleting the unknown id zzz leaves the sample storage
unchanged, and deleting f1 twice equals deleting it once. -/
theorem C10_delete_idempotent_witness :
    deleteTextField sampleStorage ("zzz") = sampleStorage ∧
    deleteTextField (deleteTextField sampleStorage ("f1")) ("f1")
      = deleteTextField sampleStorage ("f1") := by
  have h1 := C10_delete_idempotent sampleStorage ("zzz")
  have h2 := C10_delete_idempotent sampleStorage ("f1")
  exact ⟨h1.1 (by rfl), h2.2⟩

end FillablePDF
